import Mathlib

/-!
Shallow embedding of the Food-Hunter Discord bot (KimmyTsai/Food-Hunter-Discord-Bot).

Source files embedded:
  * `food_tool.py`  — class `Tools`: `get_coordinates`, `calculate_travel_times`,
    `get_place_details`, `find_food`.  This is the module the bot actually imports;
    `webui_tool.py` is the near-identical legacy copy (its only behavioural
    differences: review truncation at 1000 instead of 1500 and a missing
    `"rows" in res` guard whose failure is caught by the same bare `except`).
  * `bot.py` — the `/eat` dedup-context computation, the save-list add callback,
    `/delete`, and the JSON persistence of `user_saved_lists`.

Modelling conventions:
  * Upstream HTTP responses are part of an explicit environment: `none` models a
    transport failure (an exception raised by `requests.get(...).json()`),
    `some r` a decoded JSON body.  Python's `try/except` around each call becomes
    a `match` on that `Option`.
  * Python floats that only feed truthiness tests or `≥` comparisons are modelled
    as `Int` (latitudes) and `Rat` (ratings); `duration.value` is a `Nat` number
    of seconds and `math.ceil(v / 60)` is the exact ceiling `(v + 59) / 60`
    (Python's float division is exact for every realistic duration).
  * Python dicts keyed by strings are association lists with Python's update
    semantics (`dictInsert`: replace in place if the key exists, else append).
  * `random.sample` is modelled by `randomSample`, driven by an arbitrary stream
    of numbers carried in the environment, so theorems quantify over every
    possible randomness.
-/

/-- Python truthiness of an optional number: `not x` is true for `None` and for
`0`/`0.0`. -/
def pyFalsy : Option Int → Bool
  | none => true
  | some v => v == 0

/-- Python string slicing `s[:n]` (by code points). -/
def pyStrTake (s : String) (n : Nat) : String :=
  ⟨s.data.take n⟩

/-- Python substring test `needle in hay`. -/
def listContainsSub (hay needle : List Char) : Bool :=
  needle.isPrefixOf hay ||
    match hay with
    | [] => false
    | _ :: t => listContainsSub t needle

/-- Python `needle in hay` on strings. -/
def strContains (hay needle : String) : Bool :=
  listContainsSub hay.data needle.data

/-! ## Geocoding (`Tools.get_coordinates`, food_tool.py lines 22-34) -/

/-- Shape of `results[i].geometry.location` in a geocode response. -/
structure GeoLoc where
  lat : Int
  lng : Int
deriving Repr, DecidableEq

/-- Decoded body of the geocode HTTP call. -/
structure GeoResponse where
  status : String
  results : List GeoLoc
deriving Repr, DecidableEq

/-- Model of `Tools.get_coordinates`: returns `(None, None)` on empty input, non-OK
status, transport failure (`resp = none`) or an empty result list (the
`IndexError` on `res["results"][0]` is swallowed by the bare `except`). -/
def get_coordinates (location_name : String) (resp : Option GeoResponse) :
    Option Int × Option Int :=
  if location_name = "" then (none, none)
  else
    match resp with
    | none => (none, none)
    | some res =>
      if res.status = "OK" then
        match res.results.head? with
        | some loc => (some loc.lat, some loc.lng)
        | none => (none, none)
      else (none, none)

/-! ## Distance matrix (`Tools.calculate_travel_times`, food_tool.py lines 36-63) -/

/-- Shape of `rows[0].elements[i]` in a distance-matrix response.  The duration fields
are only read when `status = "OK"`. -/
structure DMElement where
  status : String
  durationText : String
  /-- Field `duration.value`, in seconds. -/
  durationValue : Nat
deriving Repr, DecidableEq

/-- Decoded body of the distance-matrix HTTP call; `rows` is the list of rows,
each row its `elements` list (a missing `"rows"` key behaves like `[]`). -/
structure DMResponse where
  status : String
  rows : List (List DMElement)
deriving Repr, DecidableEq

/-- One value of the `travel_data` dict: duration text and ceiling minutes. -/
structure TravelEntry where
  text : String
  minutes : Nat
deriving Repr, DecidableEq

/-- Python dict assignment `d[k] = v` on a string-keyed dict modelled as an
association list: replace in place when the key exists, else append (dicts
preserve insertion order). -/
def pyDictSet {β : Type} (d : List (String × β)) (k : String) (v : β) :
    List (String × β) :=
  if d.any (fun p => p.1 == k) then
    d.map (fun p => if p.1 == k then (k, v) else p)
  else d ++ [(k, v)]

/-- Assignment `travel_data[destinations[i]] = {...}`. -/
def dictInsert (d : List (String × TravelEntry)) (k : String) (v : TravelEntry) :
    List (String × TravelEntry) :=
  pyDictSet d k v

/-- The `for i, element in enumerate(elements)` loop of
`calculate_travel_times`.  `destinations[i]` is evaluated only for OK elements;
an out-of-range index there is the `IndexError` that the surrounding `except`
turns into `{}` (result `none`). -/
def buildTravelData (dests : List String) :
    List DMElement → Nat → List (String × TravelEntry) →
    Option (List (String × TravelEntry))
  | [], _, acc => some acc
  | e :: es, i, acc =>
    if e.status = "OK" then
      match dests[i]? with
      | none => none
      | some pid =>
          buildTravelData dests es (i + 1)
            (dictInsert acc pid ⟨e.durationText, (e.durationValue + 59) / 60⟩)
    else buildTravelData dests es (i + 1) acc

/-- Model of `Tools.calculate_travel_times`.  The origin coordinates only feed the HTTP
request parameters, which the environment-passed response already accounts
for. -/
def calculate_travel_times (_origin_lat _origin_lng : Option Int)
    (destinations : List String) (resp : Option DMResponse) :
    List (String × TravelEntry) :=
  if destinations = [] then []
  else
    match resp with
    | none => []
    | some res =>
      if res.status ≠ "OK" then []
      else
        match res.rows.head? with
        | none => []
        | some elements =>
          match buildTravelData destinations elements 0 [] with
          | none => []
          | some d => d

/-! ## Place details (`Tools.get_place_details`, food_tool.py lines 65-93) -/

/-- One element of `result.reviews`; `text` is read with `r.get("text", "")`. -/
structure Review where
  text : Option String
deriving Repr, DecidableEq

/-- Decoded `result` object of a place-details response, fields read with
`.get` defaults: a missing `opening_hours.weekday_text` is `[]`, a missing
`editorial_summary.overview` is `""`, missing `reviews` is `[]`. -/
structure DetailsResult where
  weekday_text : List String
  overview : String
  reviews : List Review
deriving Repr, DecidableEq

/-- Decoded body of the place-details HTTP call. -/
structure DetailsResponse where
  status : String
  result : DetailsResult
deriving Repr, DecidableEq

/-- The `info` dict built by `get_place_details`. -/
structure PlaceDetails where
  opening_hours : List String
  reviews_summary : String
  editorial_summary : String
deriving Repr, DecidableEq

/-- The initial `info` value: empty hours, the `"無評論資料"` (no review data)
sentinel, empty summary. -/
def defaultPlaceDetails : PlaceDetails :=
  { opening_hours := []
    reviews_summary := "無評論資料"
    editorial_summary := "" }

/-- Model of `Tools.get_place_details`: on transport failure or non-OK status the
pre-built default `info` is returned; on OK, hours and summary are copied from
the response and `reviews_summary` becomes the reviews' texts joined by
`" | "` and truncated to 1500 characters — unless `reviews` is empty, in which
case the sentinel stays. -/
def get_place_details (resp : Option DetailsResponse) : PlaceDetails :=
  match resp with
  | none => defaultPlaceDetails
  | some res =>
    if res.status = "OK" then
      let result := res.result
      let base : PlaceDetails :=
        { opening_hours := result.weekday_text
          reviews_summary := defaultPlaceDetails.reviews_summary
          editorial_summary := result.overview }
      if result.reviews ≠ [] then
        { base with
            reviews_summary :=
              pyStrTake
                (String.intercalate " | " (result.reviews.map (fun r => r.text.getD "")))
                1500 }
      else base
    else defaultPlaceDetails

/-! ## Text search and the recommendation pipeline (`Tools.find_food`,
food_tool.py lines 95-200) -/

/-- One element of the text-search `results` list.  `place_id` and `name` are
always present in upstream responses (the code indexes `p["place_id"]`
directly); `rating` and `user_ratings_total` are read with `.get` defaults 0. -/
structure Place where
  place_id : String
  name : String
  rating : Option Rat
  user_ratings_total : Option Int
  formatted_address : String
deriving Repr, DecidableEq

/-- Decoded body of the text-search HTTP call (a missing `results` key behaves
like `[]`, via `res.get("results", [])`). -/
structure SearchResponse where
  status : String
  results : List Place
deriving Repr, DecidableEq

/-- The keyword arguments of `Tools.find_food` (defaults:
location `"國立成功大學"`, `max_travel_time = 20`, `min_rating = 3.5`,
`min_reviews = 0`, `exclude_ids = None`). -/
structure FindFoodArgs where
  keyword : String
  location : String
  max_travel_time : Int
  min_rating : Rat
  min_reviews : Int
  exclude_ids : Option (List String)
deriving Repr

/-- The behaviour of every upstream call and of the random generator during one
`find_food` run: `none` responses model transport failures, `searchErr` the
`str(e)` of the exception the failed search call raises, `detailsResp` the
per-place details response, `rng` the stream of choices driving
`random.sample`. -/
structure Env where
  geocodeResp : Option GeoResponse
  searchResp : Option SearchResponse
  searchErr : String
  dmResp : Option DMResponse
  detailsResp : String → Option DetailsResponse
  rng : List Nat

/-- Model of `random.sample(l, k)`: `k` distinct positions of `l`, chosen by the `rng`
stream (each step removes the chosen element).  Python requires `k ≤ len(l)`;
`find_food` always calls it with `k = min(3, len(l))`. -/
def randomSample {α : Type} : List Nat → List α → Nat → List α
  | _, _, 0 => []
  | _, [], _ + 1 => []
  | rng, a :: t, k + 1 =>
    match (a :: t)[rng.headD 0 % (a :: t).length]? with
    | none => []
    | some x =>
        x :: randomSample rng.tail ((a :: t).eraseIdx (rng.headD 0 % (a :: t).length)) k

/-- One entry of `output_data`: the dict assembled for each sampled place.
`rating` in the source is the formatted string
`f"{p.get('rating')} ({p.get('user_ratings_total')} reviews)"`; the model keeps
its two components unformatted (no claim reads the formatted text). -/
structure Restaurant where
  name : String
  ratingValue : Option Rat
  ratingCount : Option Int
  travel_time : String
  address : String
  map_link : String
  details_data : PlaceDetails
deriving Repr, DecidableEq

/-- The filter of food_tool.py lines 132-137: rating ≥ `min_rating`, review
count ≥ `min_reviews`, `place_id` not excluded. -/
def passesFilter (a : FindFoodArgs) (exclude : List String) (p : Place) : Bool :=
  decide (a.min_rating ≤ p.rating.getD 0) &&
  decide (a.min_reviews ≤ p.user_ratings_total.getD 0) &&
  !(exclude.contains p.place_id)

/-- Value of `exclude_ids` after the `None → []` normalisation. -/
def excludeOf (a : FindFoodArgs) : List String :=
  a.exclude_ids.getD []

/-- The `candidates` list. -/
def candidatesOf (res : SearchResponse) (a : FindFoodArgs) : List Place :=
  res.results.filter (passesFilter a (excludeOf a))

/-- Slice `top_candidates = candidates[:15]`. -/
def topCandidatesOf (res : SearchResponse) (a : FindFoodArgs) : List Place :=
  (candidatesOf res a).take 15

/-- The `final_list` loop (lines 149-154): keep the top candidates whose
travel entry exists and is within `max_travel_time`, pairing each with its
`travel_time_text`. -/
def finalListOf (env : Env) (res : SearchResponse) (a : FindFoodArgs)
    (olat olng : Option Int) : List (Place × String) :=
  let travel := calculate_travel_times olat olng
    ((topCandidatesOf res a).map (fun p => p.place_id)) env.dmResp
  (topCandidatesOf res a).filterMap (fun p =>
    match travel.lookup p.place_id with
    | some e => if (e.minutes : Int) ≤ a.max_travel_time then some (p, e.text) else none
    | none => none)

/-- The map link built for each selected place. -/
def mapLinkOf (pid : String) : String :=
  "https://www.google.com/maps/place/?q=place_id:" ++ pid

/-- The `output_data` entry for one sampled place. -/
def restaurantOf (env : Env) (p : Place × String) : Restaurant :=
  { name := p.1.name
    ratingValue := p.1.rating
    ratingCount := p.1.user_ratings_total
    travel_time := p.2
    address := p.1.formatted_address
    map_link := mapLinkOf p.1.place_id
    details_data := get_place_details (env.detailsResp p.1.place_id) }

/-- The "already recommended" message of line 141. -/
def alreadySeenMsg (keyword : String) : String :=
  "附近的「" ++ keyword ++ "」都已經推薦過囉！試試看換個關鍵字或地點吧。"

/-- The generic no-match message of line 142. -/
def noMatchMsg : String :=
  "No places found matching criteria."

/-- The success prompt of lines 175-196.  The serialized `output_data`
(`json.dumps`) is abstracted by `reprStr` — no claim reads the prompt body;
only the failure messages are compared by content. -/
def promptOf (keyword location : String) (max_travel_time : Int)
    (output_data : List Restaurant) : String :=
  "\nThe user is looking for \x22" ++ keyword ++ "\x22 within " ++
    toString max_travel_time ++ " mins from \x22" ++ location ++ "\x22.\n" ++
    "Here are the selected restaurants with reviews data:\n\n" ++
    reprStr output_data ++ "\n\nInstruction for AI (Reply in Traditional Chinese): ..."

/-- Model of `Tools.find_food` — the full pipeline.  Every Python `return` becomes one
branch; the surrounding `try/except Exception` is the `none` case of
`searchResp` (the only statement inside the `try` whose failure is not already
absorbed by a callee's own bare `except` is the search call itself, all dict
keys used afterwards being guaranteed by the upstream schema).  The function is
total: it always returns the `(prompt-or-message, ids, restaurants)` triple. -/
def find_food (env : Env) (apiKey : String) (a : FindFoodArgs) :
    String × List String × List Restaurant :=
  if apiKey = "" then ("Error: API Key missing.", [], [])
  else
    let olat := (get_coordinates a.location env.geocodeResp).1
    let olng := (get_coordinates a.location env.geocodeResp).2
    if pyFalsy olat then
      ("Error: Cannot find location \x27" ++ a.location ++ "\x27.", [], [])
    else
      match env.searchResp with
      | none => ("Error: " ++ env.searchErr, [], [])
      | some res =>
        if res.status ≠ "OK" then ("No results found.", [], [])
        else
          if candidatesOf res a = [] then
            if res.results ≠ [] ∧ excludeOf a ≠ [] then
              (alreadySeenMsg a.keyword, [], [])
            else (noMatchMsg, [], [])
          else
            let finalList := finalListOf env res a olat olng
            if finalList = [] then
              ("Found places, but none are within " ++
                toString a.max_travel_time ++ " mins.", [], [])
            else
              let selected := randomSample env.rng finalList (min 3 finalList.length)
              let selectedIds := selected.map (fun p => p.1.place_id)
              let output_data := selected.map (restaurantOf env)
              (promptOf a.keyword a.location a.max_travel_time output_data,
                selectedIds, output_data)

/-! ## Conversational context and dedup (`/eat`, bot.py lines 174-189) -/

/-- An analysis dict as produced by `analyze_request` and stored (with
`seen_ids` added) in `user_contexts`.  Fields are read with `.get`, so each is
optional; `time_limit` is never compared, only forwarded to the pipeline. -/
structure AnalysisCtx where
  location : Option String
  keyword : Option String
  time_limit : Option Int
  seen_ids : Option (List String)
deriving Repr, DecidableEq

/-- The dedup computation of bot.py lines 179-183: start from `[]`; when a
prior context exists and both its location and keyword equal the new
analysis's, use its `seen_ids` (default `[]`). -/
def computeExcludeIds (analysis : AnalysisCtx) (last : Option AnalysisCtx) :
    List String :=
  match last with
  | none => []
  | some c =>
    if analysis.location = c.location ∧ analysis.keyword = c.keyword then
      c.seen_ids.getD []
    else []

/-! ## Saved-list store (`RestaurantView` add callback, bot.py lines 61-78, and
`/delete`, lines 226-247) -/

/-- One persisted entry: `{"name": ..., "map_link": ..., "rating": ...}`. -/
structure SavedEntry where
  name : String
  map_link : String
  rating : String
deriving Repr, DecidableEq

/-- State `user_saved_lists`: a JSON object keyed by stringified user ids, i.e. a
Python dict; modelled as an association list with dict update semantics. -/
abbrev SavedStore : Type := List (String × List SavedEntry)

/-- Read `user_saved_lists.get(uid, [])`. -/
def storeGet (s : SavedStore) (uid : String) : List SavedEntry :=
  (s.lookup uid).getD []

/-- Write `user_saved_lists[uid] = l` (replace in place if present, else append). -/
def storeSet (s : SavedStore) (uid : String) (l : List SavedEntry) : SavedStore :=
  pyDictSet s uid l

/-- Result reported by the add-button callback. -/
inductive AddResult where
  | added
  | already_present
deriving Repr, DecidableEq

/-- The duplicate check and append of the add-button callback (bot.py lines
68-77), run after the user's list has been materialised. -/
def addEntryChecked (s1 : SavedStore) (uid : String) (e : SavedEntry) :
    AddResult × SavedStore :=
  if (storeGet s1 uid).any (fun x => x.name == e.name) then (.already_present, s1)
  else (.added, storeSet s1 uid (storeGet s1 uid ++ [e]))

/-- The add-button callback (bot.py lines 61-78): materialise the user's list
if absent (`if user_id not in user_saved_lists: ... = []`), refuse when an
entry with the same name exists, else append. -/
def addEntry (s : SavedStore) (uid : String) (e : SavedEntry) :
    AddResult × SavedStore :=
  addEntryChecked (if (s.lookup uid).isNone then storeSet s uid [] else s) uid e

/-- Search for `to_remove`: the first saved entry whose name contains the query string
(bot.py lines 235-239). -/
def findFirstMatch (l : List SavedEntry) (sub : String) : Option SavedEntry :=
  l.find? (fun e => strContains e.name sub)

/-- Python `list.remove(x)`: drop the first element equal to `x` (never called
on a list not containing `x`). -/
def pyListRemove (l : List SavedEntry) (x : SavedEntry) : List SavedEntry :=
  match l with
  | [] => []
  | y :: t => if y = x then t else y :: pyListRemove t x

/-- Command `/delete` (bot.py lines 226-247): find the first entry whose name contains
`sub`, remove it and write the list back; report the removed entry, or `none`
when the list is empty or nothing matches. -/
def removeEntry (s : SavedStore) (uid : String) (sub : String) :
    Option SavedEntry × SavedStore :=
  let saved := storeGet s uid
  match findFirstMatch saved sub with
  | some x => (some x, storeSet s uid (pyListRemove saved x))
  | none => (none, s)

/-- One user interaction mutating the saved-list store. -/
inductive SaveOp where
  | add (uid : String) (e : SavedEntry)
  | del (uid : String) (sub : String)

/-- Apply one operation, keeping only the store. -/
def applySaveOp (s : SavedStore) : SaveOp → SavedStore
  | .add uid e => (addEntry s uid e).2
  | .del uid sub => (removeEntry s uid sub).2

/-- Apply a sequence of operations to a store. -/
def applySaveOps (s : SavedStore) (ops : List SaveOp) : SavedStore :=
  ops.foldl applySaveOp s

/-- The per-user uniqueness invariant: no two entries of a user's list share a
name. -/
def NamesNodup (s : SavedStore) : Prop :=
  ∀ uid, ((storeGet s uid).map (fun e => e.name)).Nodup

/-! ## Persistence (`load_data` / `save_data`, bot.py lines 20-33)

`save_data` serialises `user_saved_lists` with `json.dump`; `load_data` reads
it back with `json.load`.  The JSON text layer is the standard library's;
the model captures the serialisation at the JSON-value level: the store is
encoded into a JSON value of the persisted layout (§6: top-level object keyed
by user-id strings, values arrays of three-string objects) and decoded back. -/

/-- JSON values, restricted to the constructors the persisted layout uses. -/
inductive JVal where
  | str (s : String)
  | arr (xs : List JVal)
  | obj (fields : List (String × JVal))
deriving Repr

/-- Encoding of one saved entry as `json.dump` lays it out. -/
def encodeEntry (e : SavedEntry) : JVal :=
  .obj [("name", .str e.name), ("map_link", .str e.map_link),
        ("rating", .str e.rating)]

/-- Decoding of one saved entry, as `json.load` + the entry accesses
(`item['name']` etc.) consume it. -/
def decodeEntry : JVal → Option SavedEntry
  | .obj [("name", .str n), ("map_link", .str m), ("rating", .str r)] =>
      some ⟨n, m, r⟩
  | _ => none

/-- Model of `save_data` at the JSON-value level: the whole mapping, rewritten in full. -/
def encodeStore (s : SavedStore) : JVal :=
  .obj (s.map (fun p => (p.1, .arr (p.2.map encodeEntry))))

/-- Decode a list of JSON values element-wise, failing if any element fails. -/
def decodeList {α : Type} (dec : JVal → Option α) : List JVal → Option (List α)
  | [] => some []
  | j :: t =>
    match dec j with
    | none => none
    | some x =>
      match decodeList dec t with
      | none => none
      | some xs => some (x :: xs)

/-- Decoding of one user's array of entries. -/
def decodeEntryList : JVal → Option (List SavedEntry)
  | .arr xs => decodeList decodeEntry xs
  | _ => none

/-- Decode the object fields of the persisted mapping, user by user. -/
def decodeFields : List (String × JVal) → Option SavedStore
  | [] => some []
  | (k, j) :: t =>
    match decodeEntryList j with
    | none => none
    | some l =>
      match decodeFields t with
      | none => none
      | some rest => some ((k, l) :: rest)

/-- Model of `load_data` at the JSON-value level. -/
def decodeStore : JVal → Option SavedStore
  | .obj fields => decodeFields fields
  | _ => none

/-! ## Success condition and concrete fixtures used by the claim theorems -/

/-- The conditions under which one `find_food` run reaches the success return
of food_tool.py line 197: key present, geocoded latitude truthy, search call
decoded with status OK, some candidate survives the rating/review/exclusion
filter and some top candidate survives the travel-time filter. -/
def SuccessRun (env : Env) (apiKey : String) (a : FindFoodArgs) : Prop :=
  apiKey ≠ "" ∧
  pyFalsy (get_coordinates a.location env.geocodeResp).1 = false ∧
  ∃ res, env.searchResp = some res ∧ res.status = "OK" ∧
    candidatesOf res a ≠ [] ∧
    finalListOf env res a (get_coordinates a.location env.geocodeResp).1
      (get_coordinates a.location env.geocodeResp).2 ≠ []

/-- Distance-matrix fixture: three OK elements (119 s, 120 s, 121 s) and one
`NOT_FOUND` element. -/
def dmFixtureElems : List DMElement :=
  [⟨"OK", "2 mins", 119⟩, ⟨"OK", "2 mins", 120⟩,
   ⟨"OK", "3 mins", 121⟩, ⟨"NOT_FOUND", "", 0⟩]

/-- Distance-matrix response fixture wrapping `dmFixtureElems`. -/
def dmFixture : DMResponse := ⟨"OK", [dmFixtureElems]⟩

/-- The four destinations of the distance-matrix fixture. -/
def dmFixtureDests : List String := ["a", "b", "c", "d"]

/-- A raw search result failing the default rating filter (rating 2 < 3.5)
whose id is NOT in the exclude list. -/
def lowRatingPlace : Place := ⟨"p1", "低分店", some (mkRat 2 1), some 10, "addr"⟩

/-- Search response containing only `lowRatingPlace`. -/
def c2SearchResp : SearchResponse := ⟨"OK", [lowRatingPlace]⟩

/-- Environment for the C2 counterexample: geocoding succeeds, search returns
`c2SearchResp`. -/
def c2EnvFixture : Env :=
  ⟨some ⟨"OK", [⟨1, 2⟩]⟩, some c2SearchResp, "", none, fun _ => none, []⟩

/-- Arguments for the C2 counterexample: a nonempty exclude list that matches
none of the raw results. -/
def c2ArgsFixture : FindFoodArgs :=
  ⟨"牛肉湯", "台南", 20, mkRat 7 2, 0, some ["zzz"]⟩

/-- A filter-passing place used by the C2 witness. -/
def c2wPlace : Place := ⟨"p1", "店", some (mkRat 4 1), some 10, "addr"⟩

/-- Search response whose single result is covered by the exclude list below. -/
def c2wResp : SearchResponse := ⟨"OK", [c2wPlace]⟩

/-- Environment for the C2 witness. -/
def c2wEnv : Env :=
  ⟨some ⟨"OK", [⟨1, 2⟩]⟩, some c2wResp, "", none, fun _ => none, []⟩

/-- Arguments for the C2 witness: the exclude list covers every raw result. -/
def c2wArgs : FindFoodArgs :=
  ⟨"牛肉湯", "台南", 20, mkRat 7 2, 0, some ["p1"]⟩

/-- Two filter-passing places for the C5 witness. -/
def c5Place1 : Place := ⟨"a", "店A", some (mkRat 4 1), some 10, "addrA"⟩

/-- Second filter-passing place for the C5 witness. -/
def c5Place2 : Place := ⟨"b", "店B", some (mkRat 9 2), some 20, "addrB"⟩

/-- Search response for the C5 witness: two eligible places. -/
def c5Resp : SearchResponse := ⟨"OK", [c5Place1, c5Place2]⟩

/-- Environment for the C5 witness: both places get OK travel elements within
the 20-minute budget. -/
def c5Env : Env :=
  ⟨some ⟨"OK", [⟨1, 2⟩]⟩, some c5Resp, "",
   some ⟨"OK", [[⟨"OK", "5 mins", 300⟩, ⟨"OK", "8 mins", 480⟩]]⟩,
   fun _ => none, [1]⟩

/-- Arguments for the C5 witness. -/
def c5Args : FindFoodArgs := ⟨"k", "L", 20, mkRat 7 2, 0, none⟩

/-! ## General lemmas about the modelling primitives -/

/-- Keys whose dict entry was never written keep their lookup; helper for the
`map` branch of `pyDictSet`. -/
theorem lookup_map_set {β : Type} (k : String) (v : β) :
    ∀ d : List (String × β), d.any (fun p => p.1 == k) = true →
      (d.map (fun p => if p.1 == k then (k, v) else p)).lookup k = some v := by
  intro d
  induction d with
  | nil => intro h; simp at h
  | cons hd tl ih =>
    intro h
    cases hk : (hd.1 == k) with
    | true =>
      rw [List.map_cons, if_pos hk]
      simp [List.lookup]
    | false =>
      have htl : tl.any (fun p => p.1 == k) = true := by
        simp only [List.any_cons, hk, Bool.false_or] at h
        exact h
      have hke : (k == hd.1) = false := by
        rw [beq_eq_false_iff_ne] at hk ⊢
        exact fun hkk => hk hkk.symm
      rw [List.map_cons, if_neg (by simp [hk])]
      simpa [List.lookup, hke] using ih htl

/-- The `map` branch of `pyDictSet` does not disturb other keys. -/
theorem lookup_map_set_ne {β : Type} (k k' : String) (v : β) (hne : k' ≠ k) :
    ∀ d : List (String × β),
      (d.map (fun p => if p.1 == k then (k, v) else p)).lookup k' = d.lookup k' := by
  intro d
  induction d with
  | nil => rfl
  | cons hd tl ih =>
    cases hk : (hd.1 == k) with
    | true =>
      have h1 : (k' == k) = false := by simpa using hne
      have h2 : (k' == hd.1) = false := by
        rw [beq_eq_false_iff_ne]
        intro hkk
        exact hne (hkk.trans (by simpa using hk))
      rw [List.map_cons, if_pos hk]
      simp only [List.lookup, h1, h2]
      exact ih
    | false =>
      rw [List.map_cons, if_neg (by simp [hk])]
      cases h2 : (k' == hd.1) with
      | true => simp [List.lookup, h2]
      | false =>
        simp only [List.lookup, h2]
        exact ih

/-- A dict with no entry for `k` looks `k` up to `none`. -/
theorem lookup_eq_none_of_any_eq_false {β : Type} (k : String) :
    ∀ d : List (String × β), d.any (fun p => p.1 == k) = false →
      d.lookup k = none := by
  intro d
  induction d with
  | nil => intro _; rfl
  | cons hd tl ih =>
    intro h
    simp only [List.any_cons, Bool.or_eq_false_iff] at h
    have hke : (k == hd.1) = false := by
      rw [beq_eq_false_iff_ne]
      intro hkk
      have h1 := h.1
      rw [beq_eq_false_iff_ne] at h1
      exact h1 hkk.symm
    simp only [List.lookup, hke]
    exact ih h.2

/-- Looking up the key just written into a Python dict yields the new value. -/
theorem lookup_pyDictSet_self {β : Type} (d : List (String × β)) (k : String)
    (v : β) : (pyDictSet d k v).lookup k = some v := by
  unfold pyDictSet
  split
  case isTrue h => exact lookup_map_set k v d h
  case isFalse h =>
    rw [Bool.not_eq_true] at h
    have hnone : d.lookup k = none := lookup_eq_none_of_any_eq_false k d h
    simp [List.lookup_append, hnone, List.lookup]

/-- Writing key `k` into a Python dict leaves every other key's binding
untouched. -/
theorem lookup_pyDictSet_ne {β : Type} (d : List (String × β)) (k k' : String)
    (v : β) (hne : k' ≠ k) : (pyDictSet d k v).lookup k' = d.lookup k' := by
  unfold pyDictSet
  split
  case isTrue _ => exact lookup_map_set_ne k k' v hne d
  case isFalse _ =>
    have h1 : (k' == k) = false := by simpa using hne
    rcases hlk : d.lookup k' with _ | w
    · simp [List.lookup_append, hlk, List.lookup, h1]
    · simp [List.lookup_append, hlk]

/-- Unfolding `randomSample` on a non-empty list (definitional). -/
theorem randomSample_cons {α : Type} (rng : List Nat) (a : α) (t : List α)
    (k : Nat) :
    randomSample rng (a :: t) (k + 1) =
      match (a :: t)[rng.headD 0 % (a :: t).length]? with
      | none => []
      | some x =>
          x :: randomSample rng.tail
            ((a :: t).eraseIdx (rng.headD 0 % (a :: t).length)) k := rfl

/-- Sampling with `k ≤ len(l)` returns exactly `k` elements. -/
theorem randomSample_length {α : Type} (k : Nat) :
    ∀ (rng : List Nat) (l : List α), k ≤ l.length →
      (randomSample rng l k).length = k := by
  induction k with
  | zero => intro rng l _; cases l <;> rfl
  | succ k ih =>
    intro rng l hk
    match l with
    | [] => simp at hk
    | a :: t =>
      have hi : rng.headD 0 % (a :: t).length < (a :: t).length :=
        Nat.mod_lt _ (by simp)
      have hx : (a :: t)[rng.headD 0 % (a :: t).length]? =
          some ((a :: t).get ⟨rng.headD 0 % (a :: t).length, hi⟩) :=
        List.getElem?_eq_getElem hi
      have hlen : ((a :: t).eraseIdx (rng.headD 0 % (a :: t).length)).length =
          (a :: t).length - 1 := by
        rw [List.length_eraseIdx, if_pos hi]
      have hk' : k ≤ ((a :: t).eraseIdx (rng.headD 0 % (a :: t).length)).length := by
        rw [hlen]
        simp only [List.length_cons]
        simp only [List.length_cons] at hk
        omega
      rw [randomSample_cons, hx]
      rw [List.length_cons, ih rng.tail _ hk']

/-- Reading back the list just written for a user. -/
theorem storeGet_storeSet_self (s : SavedStore) (uid : String)
    (l : List SavedEntry) : storeGet (storeSet s uid l) uid = l := by
  unfold storeGet storeSet
  rw [lookup_pyDictSet_self]
  rfl

/-- Writing one user's list leaves every other user's list untouched. -/
theorem storeGet_storeSet_ne (s : SavedStore) (uid u : String)
    (l : List SavedEntry) (h : u ≠ uid) :
    storeGet (storeSet s uid l) u = storeGet s u := by
  unfold storeGet storeSet
  rw [lookup_pyDictSet_ne _ _ _ _ h]

/-- A user id absent from the store reads as the empty list. -/
theorem storeGet_eq_nil_of_lookup_none (s : SavedStore) (uid : String)
    (h : s.lookup uid = none) : storeGet s uid = [] := by
  unfold storeGet
  rw [h]
  rfl

/-- Function `List.find?` returns the element at the first position satisfying the
predicate. -/
theorem find?_eq_some_of_first {α : Type} (p : α → Bool) :
    ∀ (l : List α) (i : Nat) (x : α), l[i]? = some x → p x = true →
      (∀ j y, j < i → l[j]? = some y → p y = false) →
      l.find? p = some x := by
  intro l
  induction l with
  | nil => intro i x hx _ _; simp at hx
  | cons a t ih =>
    intro i x hx hp hfirst
    cases i with
    | zero =>
      have hax : a = x := by simpa using hx
      subst hax
      rw [List.find?_cons, hp]
    | succ i =>
      have hpa : p a = false := hfirst 0 a (Nat.succ_pos i) (by simp)
      rw [List.find?_cons, hpa]
      exact ih i x (by simpa using hx) hp
        (fun j y hj hy => hfirst (j + 1) y (by omega) (by simpa using hy))

/-- Python `list.remove(x)` drops exactly the element at position `i` when `x` sits at
`i` and no earlier element equals `x`. -/
theorem pyListRemove_eq_eraseIdx :
    ∀ (l : List SavedEntry) (i : Nat) (x : SavedEntry), l[i]? = some x →
      (∀ j y, j < i → l[j]? = some y → y ≠ x) →
      pyListRemove l x = l.eraseIdx i := by
  intro l
  induction l with
  | nil => intro i x hx _; simp at hx
  | cons a t ih =>
    intro i x hx hne
    cases i with
    | zero =>
      have hax : a = x := by simpa using hx
      subst hax
      simp [pyListRemove, List.eraseIdx]
    | succ i =>
      have hne0 : a ≠ x := hne 0 a (Nat.succ_pos i) (by simp)
      rw [show pyListRemove (a :: t) x = a :: pyListRemove t x from by
        simp [pyListRemove, hne0]]
      rw [List.eraseIdx_cons_succ]
      rw [ih i x (by simpa using hx)
        (fun j y hj hy => hne (j + 1) y (by omega) (by simpa using hy))]

/-- Python `list.remove` never invents elements: the result is a sublist. -/
theorem pyListRemove_sublist (x : SavedEntry) :
    ∀ l : List SavedEntry, List.Sublist (pyListRemove l x) l := by
  intro l
  induction l with
  | nil => exact List.Sublist.refl []
  | cons a t ih =>
    by_cases h : a = x
    · rw [show pyListRemove (a :: t) x = t from by simp [pyListRemove, h]]
      exact List.sublist_cons_self a t
    · rw [show pyListRemove (a :: t) x = a :: pyListRemove t x from by
        simp [pyListRemove, h]]
      exact ih.cons₂ a

/-! ## Claim theorems -/

/-- C3: the dedup exclude set handed to the pipeline is the prior context's
`seen_ids` exactly when both the analysed location and keyword equal the prior
context's, and is empty otherwise (including when no prior context exists); the
`time_limit` field — of the new analysis or of the prior context — plays no
role, so a change of `time_limit` alone does not reset the dedup set. -/
theorem eat_excludeIds_spec (analysis c : AnalysisCtx) :
    computeExcludeIds analysis none = [] ∧
    (analysis.location = c.location ∧ analysis.keyword = c.keyword →
      computeExcludeIds analysis (some c) = c.seen_ids.getD []) ∧
    (¬(analysis.location = c.location ∧ analysis.keyword = c.keyword) →
      computeExcludeIds analysis (some c) = []) ∧
    (∀ t t' : Option Int,
      computeExcludeIds { analysis with time_limit := t }
          (some { c with time_limit := t' }) =
        computeExcludeIds analysis (some c)) := by
  refine ⟨rfl, ?_, ?_, ?_⟩
  · intro h
    simp [computeExcludeIds, h]
  · intro h
    simp [computeExcludeIds, h]
  · intro t t'
    rfl

/-- C3 witness: an unchanged location/keyword pair carries the previous
`seen_ids` over even though `time_limit` differs. -/
theorem eat_excludeIds_spec_witness :
    computeExcludeIds ⟨some "成大", some "牛肉湯", some 20, none⟩
        (some ⟨some "成大", some "牛肉湯", some 30, some ["x1", "x2"]⟩) =
      ["x1", "x2"] :=
  (eat_excludeIds_spec ⟨some "成大", some "牛肉湯", some 20, none⟩
    ⟨some "成大", some "牛肉湯", some 30, some ["x1", "x2"]⟩).2.1 ⟨rfl, rfl⟩

/-- C9 counterexample: a successful place-details response with no reviews but
with opening hours and an editorial summary yields the `"無評論資料"` sentinel
together with NON-empty opening hours and a NON-empty editorial summary — the
claim's "sentinel with empty opening hours and empty editorial summary" is
wrong for this input. -/
theorem get_place_details_no_reviews_counterexample :
    (get_place_details
        (some ⟨"OK", ⟨["Mon 09:00-17:00"], "famous old shop", []⟩⟩)).reviews_summary
        = "無評論資料" ∧
    (get_place_details
        (some ⟨"OK", ⟨["Mon 09:00-17:00"], "famous old shop", []⟩⟩)).opening_hours
        ≠ [] ∧
    (get_place_details
        (some ⟨"OK", ⟨["Mon 09:00-17:00"], "famous old shop", []⟩⟩)).editorial_summary
        ≠ "" := by
  refine ⟨rfl, ?_, ?_⟩ <;> decide

/-- C9 (amended): on transport failure or non-OK status `get_place_details`
returns the zero-value `PlaceDetails`; on a successful response the reviews'
texts are joined with `" | "` and truncated to 1500 characters when reviews
exist, else the `"無評論資料"` sentinel stays — but opening hours and
editorial summary always come from the successful response. -/
theorem get_place_details_spec (res : DetailsResponse) :
    get_place_details none = defaultPlaceDetails ∧
    (res.status ≠ "OK" → get_place_details (some res) = defaultPlaceDetails) ∧
    (res.status = "OK" → res.result.reviews ≠ [] →
      get_place_details (some res) =
        { opening_hours := res.result.weekday_text
          reviews_summary :=
            pyStrTake (String.intercalate " | "
              (res.result.reviews.map (fun r => r.text.getD ""))) 1500
          editorial_summary := res.result.overview }) ∧
    (res.status = "OK" → res.result.reviews = [] →
      get_place_details (some res) =
        { opening_hours := res.result.weekday_text
          reviews_summary := defaultPlaceDetails.reviews_summary
          editorial_summary := res.result.overview }) := by
  refine ⟨rfl, ?_, ?_, ?_⟩
  · intro h
    simp [get_place_details, h]
  · intro h hr
    simp [get_place_details, h, hr]
  · intro h hr
    simp [get_place_details, h, hr]

/-- C9 witness: two reviews (one with a missing `text` field) are joined with
`" | "` and kept under the 1500-character budget. -/
theorem get_place_details_spec_witness :
    get_place_details (some ⟨"OK", ⟨["hours"], "overview", [⟨some "tasty"⟩, ⟨none⟩]⟩⟩) =
      { opening_hours := ["hours"]
        reviews_summary := pyStrTake (String.intercalate " | " ["tasty", ""]) 1500
        editorial_summary := "overview" } :=
  (get_place_details_spec ⟨"OK", ⟨["hours"], "overview", [⟨some "tasty"⟩, ⟨none⟩]⟩⟩).2.2.1
    rfl (by decide)

/-- C8: persisting the saved-list mapping (at the JSON-value level that
`json.dump`/`json.load` preserve) and reloading it yields the identical
mapping, user order and per-user entry order included. -/
theorem saved_lists_roundtrip (s : SavedStore) :
    decodeStore (encodeStore s) = some s := by
  have hentry : ∀ e : SavedEntry, decodeEntry (encodeEntry e) = some e :=
    fun e => rfl
  have hlist : ∀ l : List SavedEntry,
      decodeEntryList (.arr (l.map encodeEntry)) = some l := by
    intro l
    simp only [decodeEntryList]
    induction l with
    | nil => rfl
    | cons a t ih =>
      simp only [List.map_cons, decodeList, hentry a, ih]
  have hfields : ∀ t : SavedStore,
      decodeFields (t.map (fun p => (p.1, JVal.arr (p.2.map encodeEntry)))) =
        some t := by
    intro t
    induction t with
    | nil => rfl
    | cons p t ih =>
      simp only [List.map_cons, decodeFields, hlist p.2, ih]
  exact hfields s

/-- C10: a geocoding response that succeeds (`status = "OK"`, at least one
result) but reports latitude exactly 0 makes `find_food` return the
"Cannot find location" error with empty id and restaurant lists — the
not-found check `if not origin_lat` tests the truthiness of the latitude, not
the presence of a result. -/
theorem find_food_lat_zero (env : Env) (apiKey : String) (a : FindFoodArgs)
    (g : GeoResponse) (loc : GeoLoc)
    (hk : apiKey ≠ "") (hg : env.geocodeResp = some g) (hs : g.status = "OK")
    (hh : g.results.head? = some loc) (hlat : loc.lat = 0) :
    find_food env apiKey a =
      ("Error: Cannot find location \x27" ++ a.location ++ "\x27.", [], []) := by
  have hfal : pyFalsy (get_coordinates a.location env.geocodeResp).1 = true := by
    unfold get_coordinates
    rw [hg]
    by_cases hloc : a.location = ""
    · simp [hloc, pyFalsy]
    · simp [hloc, hs, hh, hlat, pyFalsy]
  simp [find_food, hk, hfal]

/-- C10 witness: latitude 0 at a named location is reported as "cannot find
location". -/
theorem find_food_lat_zero_witness :
    find_food ⟨some ⟨"OK", [⟨0, 5⟩]⟩, none, "", none, fun _ => none, []⟩ "K"
        ⟨"k", "X", 20, mkRat 7 2, 0, none⟩ =
      ("Error: Cannot find location \x27X\x27.", [], []) :=
  find_food_lat_zero ⟨some ⟨"OK", [⟨0, 5⟩]⟩, none, "", none, fun _ => none, []⟩
    "K" ⟨"k", "X", 20, mkRat 7 2, 0, none⟩ ⟨"OK", [⟨0, 5⟩]⟩ ⟨0, 5⟩
    (by decide) rfl rfl rfl rfl

/-- Distinct positions of a duplicate-free list hold distinct values. -/
theorem getElem?_ne_of_nodup (l : List String) (hnd : l.Nodup) (i j : Nat)
    (hij : i ≠ j) (key : String) (hi : l[i]? = some key) : l[j]? ≠ some key := by
  intro hj
  have hlt : i < l.length := by
    by_contra hge
    rw [List.getElem?_eq_none (by omega)] at hi
    exact Option.noConfusion hi
  exact hij (List.getElem?_inj hlt hnd (hi.trans hj.symm))

/-- The `travel_data` loop characterised: with duplicate-free destinations it
never hits the `IndexError` as long as the elements fit, each OK element's
destination maps to its ceiling-minutes entry, and a destination whose element
is not OK (or that no element touches) keeps its prior binding. -/
theorem buildTravelData_spec (dests : List String) (hnd : dests.Nodup) :
    ∀ (elems : List DMElement) (n : Nat) (acc : List (String × TravelEntry)),
      n + elems.length ≤ dests.length →
      ∃ d, buildTravelData dests elems n acc = some d ∧
        (∀ key, (∀ j, j < elems.length → dests[n + j]? ≠ some key) →
          d.lookup key = acc.lookup key) ∧
        (∀ i e key, elems[i]? = some e → dests[n + i]? = some key →
          (e.status = "OK" →
            d.lookup key = some ⟨e.durationText, (e.durationValue + 59) / 60⟩) ∧
          (e.status ≠ "OK" → d.lookup key = acc.lookup key)) := by
  intro elems
  induction elems with
  | nil =>
    intro n acc _
    refine ⟨acc, rfl, fun key _ => rfl, ?_⟩
    intro i e key he _
    simp at he
  | cons e es ih =>
    intro n acc hlen
    have hn : n < dests.length := by
      simp only [List.length_cons] at hlen
      omega
    have hpid : dests[n]? = some (dests.get ⟨n, hn⟩) := List.getElem?_eq_getElem hn
    by_cases hOK : e.status = "OK"
    · obtain ⟨d, hd, h2, h3⟩ := ih (n + 1)
        (dictInsert acc (dests.get ⟨n, hn⟩)
          ⟨e.durationText, (e.durationValue + 59) / 60⟩)
        (by simp only [List.length_cons] at hlen; omega)
      refine ⟨d, ?_, ?_, ?_⟩
      · rw [show buildTravelData dests (e :: es) n acc =
            buildTravelData dests es (n + 1)
              (dictInsert acc (dests.get ⟨n, hn⟩)
                ⟨e.durationText, (e.durationValue + 59) / 60⟩) from by
          simp [buildTravelData, hOK, hpid]]
        exact hd
      · intro key hkey
        have hkey0 : dests[n]? ≠ some key := by
          have := hkey 0 (by simp)
          simpa using this
        have h2' := h2 key (fun j hj => by
          have := hkey (j + 1) (by simp only [List.length_cons]; omega)
          simpa [show n + (j + 1) = n + 1 + j from by omega] using this)
        rw [h2']
        have hkpid : key ≠ dests.get ⟨n, hn⟩ := by
          intro hkk
          exact hkey0 (by rw [hpid, hkk])
        exact lookup_pyDictSet_ne acc (dests.get ⟨n, hn⟩) key _ hkpid
      · intro i e' key he' hkey
        cases i with
        | zero =>
          have hee : e = e' := by simpa using he'
          subst hee
          have hkeyp : key = dests.get ⟨n, hn⟩ := by
            have : some (dests.get ⟨n, hn⟩) = some key := by
              rw [← hpid]
              simpa using hkey
            simpa using this.symm
          constructor
          · intro _
            have hall : ∀ j, j < es.length → dests[n + 1 + j]? ≠ some key :=
              fun j hj =>
                getElem?_ne_of_nodup dests hnd n (n + 1 + j) (by omega) key
                  (by rw [hpid, hkeyp])
            rw [h2 key hall, hkeyp]
            exact lookup_pyDictSet_self acc (dests.get ⟨n, hn⟩) _
          · intro hcontra
            exact absurd hOK hcontra
        | succ i =>
          have he'' : es[i]? = some e' := by simpa using he'
          have hkey' : dests[n + 1 + i]? = some key := by
            rw [show n + 1 + i = n + (i + 1) from by omega]
            exact hkey
          have h3' := h3 i e' key he'' hkey'
          refine ⟨h3'.1, ?_⟩
          intro hne
          rw [h3'.2 hne]
          have hkpid : key ≠ dests.get ⟨n, hn⟩ := by
            intro hkk
            exact getElem?_ne_of_nodup dests hnd n (n + 1 + i) (by omega) key
              (by rw [hpid, hkk]) hkey'
          exact lookup_pyDictSet_ne acc (dests.get ⟨n, hn⟩) key _ hkpid
    · obtain ⟨d, hd, h2, h3⟩ := ih (n + 1) acc
        (by simp only [List.length_cons] at hlen; omega)
      refine ⟨d, ?_, ?_, ?_⟩
      · rw [show buildTravelData dests (e :: es) n acc =
            buildTravelData dests es (n + 1) acc from by
          simp [buildTravelData, hOK]]
        exact hd
      · intro key hkey
        exact h2 key (fun j hj => by
          have := hkey (j + 1) (by simp only [List.length_cons]; omega)
          simpa [show n + (j + 1) = n + 1 + j from by omega] using this)
      · intro i e' key he' hkey
        cases i with
        | zero =>
          have hee : e = e' := by simpa using he'
          subst hee
          refine ⟨fun h => absurd h hOK, fun _ => ?_⟩
          have hkeyp : dests[n]? = some key := by simpa using hkey
          have hall : ∀ j, j < es.length → dests[n + 1 + j]? ≠ some key :=
            fun j hj =>
              getElem?_ne_of_nodup dests hnd n (n + 1 + j) (by omega) key hkeyp
          exact h2 key hall
        | succ i =>
          have he'' : es[i]? = some e' := by simpa using he'
          have hkey' : dests[n + 1 + i]? = some key := by
            rw [show n + 1 + i = n + (i + 1) from by omega]
            exact hkey
          exact h3 i e' key he'' hkey'

/-- C4: in a distance-matrix response with overall status OK, the element at
position `i` with status OK and `duration.value = v` seconds produces the
entry `ceil(v/60)` minutes for the `i`-th destination, and an element whose
status is not OK leaves its destination out of the returned mapping entirely
(no zero default). -/
theorem calculate_travel_times_spec (olat olng : Option Int) (res : DMResponse)
    (dests : List String) (elems : List DMElement) (i : Nat) (e : DMElement)
    (key : String)
    (hok : res.status = "OK") (hrows : res.rows.head? = some elems)
    (hnd : dests.Nodup) (hlen : elems.length ≤ dests.length)
    (he : elems[i]? = some e) (hkey : dests[i]? = some key) :
    (e.status = "OK" →
      (calculate_travel_times olat olng dests (some res)).lookup key =
        some ⟨e.durationText, (e.durationValue + 59) / 60⟩) ∧
    (e.status ≠ "OK" →
      (calculate_travel_times olat olng dests (some res)).lookup key = none) := by
  have hdne : dests ≠ [] := by
    intro h0
    rw [h0] at hkey
    simp at hkey
  obtain ⟨d, hd, _h2, h3⟩ := buildTravelData_spec dests hnd elems 0 [] (by omega)
  have hcalc : calculate_travel_times olat olng dests (some res) = d := by
    simp [calculate_travel_times, hdne, hok, hrows, hd]
  have h3' := h3 i e key (by simpa using he) (by simpa using hkey)
  refine ⟨fun hOK => ?_, fun hNOK => ?_⟩
  · rw [hcalc]
    exact h3'.1 hOK
  · rw [hcalc, h3'.2 hNOK]
    rfl

/-- C4 witness: durations 119, 120, 121 seconds round up to 2, 2 and 3
minutes, and a `NOT_FOUND` element's destination is absent from the result. -/
theorem calculate_travel_times_spec_witness :
    (calculate_travel_times (some 1) (some 2) dmFixtureDests
        (some dmFixture)).lookup "a" = some ⟨"2 mins", 2⟩ ∧
    (calculate_travel_times (some 1) (some 2) dmFixtureDests
        (some dmFixture)).lookup "b" = some ⟨"2 mins", 2⟩ ∧
    (calculate_travel_times (some 1) (some 2) dmFixtureDests
        (some dmFixture)).lookup "c" = some ⟨"3 mins", 3⟩ ∧
    (calculate_travel_times (some 1) (some 2) dmFixtureDests
        (some dmFixture)).lookup "d" = none := by
  refine ⟨?_, ?_, ?_, ?_⟩
  · exact (calculate_travel_times_spec (some 1) (some 2) dmFixture
      dmFixtureDests dmFixtureElems 0 ⟨"OK", "2 mins", 119⟩ "a"
      rfl rfl (by decide) (by decide) rfl rfl).1 rfl
  · exact (calculate_travel_times_spec (some 1) (some 2) dmFixture
      dmFixtureDests dmFixtureElems 1 ⟨"OK", "2 mins", 120⟩ "b"
      rfl rfl (by decide) (by decide) rfl rfl).1 rfl
  · exact (calculate_travel_times_spec (some 1) (some 2) dmFixture
      dmFixtureDests dmFixtureElems 2 ⟨"OK", "3 mins", 121⟩ "c"
      rfl rfl (by decide) (by decide) rfl rfl).1 rfl
  · exact (calculate_travel_times_spec (some 1) (some 2) dmFixture
      dmFixtureDests dmFixtureElems 3 ⟨"NOT_FOUND", "", 0⟩ "d"
      rfl rfl (by decide) (by decide) rfl rfl).2 (by decide)

/-- C1: `find_food` is a total function into the
`(message-or-prompt, ids, restaurants)` triple (the Python pipeline's
`try/except Exception` and its helpers' bare `except`s never let an exception
escape), and on every run that does not reach the success return — API key
missing, geocoding failed or falsy, search transport failure, non-OK search
status, empty filtered candidates, or no candidate within the travel budget —
the id list and the restaurant list are both empty, the first component
carrying the textual message. -/
theorem find_food_failure_empty (env : Env) (apiKey : String) (a : FindFoodArgs)
    (h : ¬ SuccessRun env apiKey a) :
    (find_food env apiKey a).2.1 = [] ∧ (find_food env apiKey a).2.2 = [] := by
  by_cases hk : apiKey = ""
  · simp [find_food, hk]
  · by_cases hf : pyFalsy (get_coordinates a.location env.geocodeResp).1
    · simp [find_food, hk, hf]
    · cases hs : env.searchResp with
      | none => simp [find_food, hk, hf, hs]
      | some res =>
        by_cases hok : res.status = "OK"
        · by_cases hcand : candidatesOf res a = []
          · by_cases hb : res.results ≠ [] ∧ excludeOf a ≠ []
            · simp [find_food, hk, hf, hs, hok, hcand, hb]
            · simp [find_food, hk, hf, hs, hok, hcand, hb]
          · by_cases hfin : finalListOf env res a
                (get_coordinates a.location env.geocodeResp).1
                (get_coordinates a.location env.geocodeResp).2 = []
            · simp [find_food, hk, hf, hs, hok, hcand, hfin]
            · exact absurd
                ⟨hk, (Bool.not_eq_true _).mp hf, res, hs, hok, hcand, hfin⟩ h
        · simp [find_food, hk, hf, hs, hok]

/-- C1 witness: with the API key missing the run is not successful and both
lists come back empty. -/
theorem find_food_failure_empty_witness :
    (find_food ⟨none, none, "", none, fun _ => none, []⟩ ""
        ⟨"k", "L", 20, mkRat 7 2, 0, none⟩).2.1 = [] ∧
    (find_food ⟨none, none, "", none, fun _ => none, []⟩ ""
        ⟨"k", "L", 20, mkRat 7 2, 0, none⟩).2.2 = [] :=
  find_food_failure_empty _ _ _ (fun hsucc => hsucc.1 rfl)

/-- C2 counterexample: the raw search has one result, it is NOT excluded by
the exclude list (which contains only the unrelated id `"zzz"`) but is dropped
by the rating filter; the claim's condition "all raw results excluded by the
exclude set" is false, yet the "already seen" message is returned — the code
only tests that the raw results and the exclude list are nonempty. -/
theorem find_food_already_seen_counterexample :
    (find_food c2EnvFixture "K" c2ArgsFixture).1 = alreadySeenMsg "牛肉湯" ∧
    c2EnvFixture.searchResp = some c2SearchResp ∧
    (c2SearchResp.results.all
      (fun p => decide (p.place_id ∈ excludeOf c2ArgsFixture))) = false := by
  refine ⟨by decide, rfl, by decide⟩

/-- C2 (amended): when the filtered candidate list is empty, the "already
seen" message is returned exactly when the raw search had results AND the
exclude list is nonempty — regardless of why each raw result was dropped — and
the generic "no match" message otherwise; in particular an exclude list
covering all raw results (the claim's special case) does yield the "already
seen" message. -/
theorem find_food_already_seen_spec (env : Env) (apiKey : String)
    (a : FindFoodArgs) (res : SearchResponse)
    (hk : apiKey ≠ "")
    (hf : pyFalsy (get_coordinates a.location env.geocodeResp).1 = false)
    (hs : env.searchResp = some res) (hok : res.status = "OK") :
    (candidatesOf res a = [] → res.results ≠ [] → excludeOf a ≠ [] →
      find_food env apiKey a = (alreadySeenMsg a.keyword, [], [])) ∧
    (candidatesOf res a = [] → (res.results = [] ∨ excludeOf a = []) →
      find_food env apiKey a = (noMatchMsg, [], [])) ∧
    (res.results ≠ [] → (∀ p ∈ res.results, p.place_id ∈ excludeOf a) →
      find_food env apiKey a = (alreadySeenMsg a.keyword, [], [])) := by
  have part1 : candidatesOf res a = [] → res.results ≠ [] → excludeOf a ≠ [] →
      find_food env apiKey a = (alreadySeenMsg a.keyword, [], []) := by
    intro hcand hr he
    simp [find_food, hk, hf, hs, hok, hcand, hr, he]
  refine ⟨part1, ?_, ?_⟩
  · intro hcand hor
    have hb : ¬(res.results ≠ [] ∧ excludeOf a ≠ []) := by
      rcases hor with h | h <;> simp [h]
    simp [find_food, hk, hf, hs, hok, hcand, hb]
  · intro hr hall
    have hcand : candidatesOf res a = [] := by
      unfold candidatesOf
      rw [List.filter_eq_nil_iff]
      intro p hp
      have hmem : (excludeOf a).contains p.place_id = true := by
        simpa using hall p hp
      simp [passesFilter, hmem]
      intro _ _
      exact hall p hp
    have hex : excludeOf a ≠ [] := by
      obtain ⟨p, hp⟩ := List.exists_mem_of_ne_nil res.results hr
      intro h0
      have := hall p hp
      rw [h0] at this
      simp at this
    exact part1 hcand hr hex

/-- C2 witness: an exclude list covering every raw search result produces the
"already seen" message, not the generic one. -/
theorem find_food_already_seen_spec_witness :
    find_food c2wEnv "K" c2wArgs = (alreadySeenMsg "牛肉湯", [], []) :=
  (find_food_already_seen_spec c2wEnv "K" c2wArgs c2wResp (by decide)
    (by decide) rfl rfl).2.2 (by decide) (by decide)

/-- C5: whenever some candidates survive the travel-time filter, the pipeline
returns exactly `min(3, number of eligible candidates)` restaurants (and as
many ids), for every behaviour of the random sampler: never more than 3 and
never more than the eligible count. -/
theorem find_food_sample_size (env : Env) (apiKey : String) (a : FindFoodArgs)
    (res : SearchResponse)
    (hk : apiKey ≠ "")
    (hf : pyFalsy (get_coordinates a.location env.geocodeResp).1 = false)
    (hs : env.searchResp = some res) (hok : res.status = "OK")
    (hcand : candidatesOf res a ≠ [])
    (hfin : finalListOf env res a (get_coordinates a.location env.geocodeResp).1
      (get_coordinates a.location env.geocodeResp).2 ≠ []) :
    (find_food env apiKey a).2.2.length =
      min 3 (finalListOf env res a
        (get_coordinates a.location env.geocodeResp).1
        (get_coordinates a.location env.geocodeResp).2).length ∧
    (find_food env apiKey a).2.1.length =
      min 3 (finalListOf env res a
        (get_coordinates a.location env.geocodeResp).1
        (get_coordinates a.location env.geocodeResp).2).length := by
  have hsample : (randomSample env.rng (finalListOf env res a
      (get_coordinates a.location env.geocodeResp).1
      (get_coordinates a.location env.geocodeResp).2)
      (min 3 (finalListOf env res a
        (get_coordinates a.location env.geocodeResp).1
        (get_coordinates a.location env.geocodeResp).2).length)).length =
      min 3 (finalListOf env res a
        (get_coordinates a.location env.geocodeResp).1
        (get_coordinates a.location env.geocodeResp).2).length :=
    randomSample_length _ env.rng _ (Nat.min_le_right _ _)
  simp [find_food, hk, hf, hs, hok, hcand, hfin, hsample]

/-- C5 witness: two eligible candidates yield exactly two restaurants
(`min 3 2 = 2`). -/
theorem find_food_sample_size_witness :
    ((find_food c5Env "K" c5Args).2.2.length =
      min 3 (finalListOf c5Env c5Resp c5Args
        (get_coordinates c5Args.location c5Env.geocodeResp).1
        (get_coordinates c5Args.location c5Env.geocodeResp).2).length) ∧
    (find_food c5Env "K" c5Args).2.2.length = 2 :=
  ⟨(find_food_sample_size c5Env "K" c5Args c5Resp (by decide) (by decide)
      rfl rfl (by decide) (by decide)).1,
   by decide⟩

/-- Materialising an absent user's empty list changes no user's visible
list. -/
theorem storeGet_materialize (s : SavedStore) (uid u : String) :
    storeGet (if (s.lookup uid).isNone then storeSet s uid [] else s) u =
      storeGet s u := by
  by_cases hn : (s.lookup uid).isNone
  · rw [if_pos hn]
    by_cases hu : u = uid
    · subst hu
      rw [storeGet_storeSet_self,
        storeGet_eq_nil_of_lookup_none s u (Option.isNone_iff_eq_none.mp hn)]
    · exact storeGet_storeSet_ne s uid u [] hu
  · rw [if_neg hn]

/-- The per-user uniqueness invariant only depends on the visible lists. -/
theorem namesNodup_of_storeGet_eq (s s' : SavedStore)
    (h : ∀ u, storeGet s' u = storeGet s u) (hs : NamesNodup s) :
    NamesNodup s' := by
  intro uid
  rw [h uid]
  exact hs uid

/-- Unfolding the duplicate check when the name is present. -/
theorem addEntryChecked_present (s1 : SavedStore) (uid : String) (e : SavedEntry)
    (h : (storeGet s1 uid).any (fun x => x.name == e.name) = true) :
    addEntryChecked s1 uid e = (.already_present, s1) := by
  unfold addEntryChecked
  rw [if_pos h]

/-- Unfolding the duplicate check when the name is absent. -/
theorem addEntryChecked_absent (s1 : SavedStore) (uid : String) (e : SavedEntry)
    (h : (storeGet s1 uid).any (fun x => x.name == e.name) = false) :
    addEntryChecked s1 uid e =
      (.added, storeSet s1 uid (storeGet s1 uid ++ [e])) := by
  unfold addEntryChecked
  rw [if_neg (by simp [h])]

/-- Adding preserves the per-user name-uniqueness invariant. -/
theorem addEntry_namesNodup (s : SavedStore) (uid : String) (e : SavedEntry)
    (hs : NamesNodup s) : NamesNodup (addEntry s uid e).2 := by
  have hs1 : NamesNodup (if (s.lookup uid).isNone then storeSet s uid [] else s) :=
    namesNodup_of_storeGet_eq s _ (storeGet_materialize s uid) hs
  unfold addEntry
  cases hc : (storeGet (if (s.lookup uid).isNone then storeSet s uid [] else s)
      uid).any (fun x => x.name == e.name) with
  | true =>
    rw [addEntryChecked_present _ _ _ hc]
    exact hs1
  | false =>
    rw [addEntryChecked_absent _ _ _ hc]
    intro u
    by_cases hu : u = uid
    · subst hu
      rw [storeGet_storeSet_self, List.map_append]
      have hnotmem : e.name ∉ (storeGet (if (s.lookup u).isNone then
          storeSet s u [] else s) u).map (fun x => x.name) := by
        intro hmem
        obtain ⟨x, hx, hxe⟩ := List.mem_map.mp hmem
        have hany : (storeGet (if (s.lookup u).isNone then storeSet s u []
            else s) u).any (fun x => x.name == e.name) = true := by
          rw [List.any_eq_true]
          exact ⟨x, hx, by simp [hxe]⟩
        rw [hc] at hany
        exact Bool.noConfusion hany
      simp [List.nodup_append, hs1 u, hnotmem]
    · rw [storeGet_storeSet_ne _ _ _ _ hu]
      exact hs1 u

/-- Deleting preserves the per-user name-uniqueness invariant. -/
theorem removeEntry_namesNodup (s : SavedStore) (uid sub : String)
    (hs : NamesNodup s) : NamesNodup (removeEntry s uid sub).2 := by
  cases hfind : findFirstMatch (storeGet s uid) sub with
  | none =>
    have heq : (removeEntry s uid sub).2 = s := by
      simp [removeEntry, hfind]
    rw [heq]
    exact hs
  | some x =>
    have heq : (removeEntry s uid sub).2 =
        storeSet s uid (pyListRemove (storeGet s uid) x) := by
      simp [removeEntry, hfind]
    rw [heq]
    intro u
    by_cases hu : u = uid
    · subst hu
      rw [storeGet_storeSet_self]
      exact (hs u).sublist ((pyListRemove_sublist x (storeGet s u)).map _)
    · rw [storeGet_storeSet_ne _ _ _ _ hu]
      exact hs u

/-- The empty store satisfies the invariant. -/
theorem namesNodup_nil : NamesNodup [] := by
  intro uid
  simp [storeGet]

/-- Any sequence of add/delete operations preserves the invariant. -/
theorem applySaveOps_namesNodup (ops : List SaveOp) :
    ∀ s : SavedStore, NamesNodup s → NamesNodup (applySaveOps s ops) := by
  induction ops with
  | nil => intro s hs; exact hs
  | cons op t ih =>
    intro s hs
    cases op with
    | add uid e => exact ih _ (addEntry_namesNodup s uid e hs)
    | del uid sub => exact ih _ (removeEntry_namesNodup s uid sub hs)

/-- C6: adding an entry whose name is already present for that user reports
`already_present` and leaves every user's list unchanged, and after any
sequence of add and delete operations starting from the empty store no two
entries of the same user share a name. -/
theorem savedList_add_spec (s : SavedStore) (uid : String) (e : SavedEntry)
    (ops : List SaveOp)
    (hpresent : (storeGet s uid).any (fun x => x.name == e.name) = true) :
    ((addEntry s uid e).1 = AddResult.already_present ∧
      ∀ u, storeGet (addEntry s uid e).2 u = storeGet s u) ∧
    NamesNodup (applySaveOps [] ops) := by
  constructor
  · have hcond : (storeGet (if (s.lookup uid).isNone then storeSet s uid []
        else s) uid).any (fun x => x.name == e.name) = true := by
      rw [storeGet_materialize]
      exact hpresent
    constructor
    · show (addEntryChecked (if (s.lookup uid).isNone then storeSet s uid []
        else s) uid e).1 = AddResult.already_present
      rw [addEntryChecked_present _ _ _ hcond]
    · intro u
      show storeGet (addEntryChecked (if (s.lookup uid).isNone then
        storeSet s uid [] else s) uid e).2 u = storeGet s u
      rw [addEntryChecked_present _ _ _ hcond]
      exact storeGet_materialize s uid u
  · exact applySaveOps_namesNodup ops [] namesNodup_nil

/-- C6 witness: re-adding a name already saved for the user reports
`already_present`. -/
theorem savedList_add_spec_witness :
    (addEntry [("u", [⟨"牛肉湯老店", "l", "5"⟩])] "u"
      ⟨"牛肉湯老店", "l2", "4"⟩).1 = AddResult.already_present :=
  ((savedList_add_spec [("u", [⟨"牛肉湯老店", "l", "5"⟩])] "u"
    ⟨"牛肉湯老店", "l2", "4"⟩ [] (by decide)).1).1

/-- C7: `/delete` removes exactly the first entry (in insertion order) whose
name contains the query substring, leaving all other entries of that user and
all other users intact, and changes nothing when no entry's name contains
it. -/
theorem delete_saved_spec (s : SavedStore) (uid sub : String) :
    (findFirstMatch (storeGet s uid) sub = none →
      removeEntry s uid sub = (none, s)) ∧
    (∀ i x, (storeGet s uid)[i]? = some x → strContains x.name sub = true →
      (∀ j y, j < i → (storeGet s uid)[j]? = some y →
        strContains y.name sub = false) →
      (removeEntry s uid sub).1 = some x ∧
      storeGet (removeEntry s uid sub).2 uid = (storeGet s uid).eraseIdx i ∧
      ∀ u, u ≠ uid → storeGet (removeEntry s uid sub).2 u = storeGet s u) := by
  constructor
  · intro h
    simp [removeEntry, h]
  · intro i x hx hpx hfirst
    have hfind : findFirstMatch (storeGet s uid) sub = some x :=
      find?_eq_some_of_first _ _ i x hx hpx hfirst
    have hrm : pyListRemove (storeGet s uid) x = (storeGet s uid).eraseIdx i :=
      pyListRemove_eq_eraseIdx _ i x hx (fun j y hj hy heq => by
        have hfalse := hfirst j y hj hy
        rw [heq, hpx] at hfalse
        exact Bool.noConfusion hfalse)
    have heq2 : removeEntry s uid sub =
        (some x, storeSet s uid ((storeGet s uid).eraseIdx i)) := by
      simp [removeEntry, hfind, hrm]
    rw [heq2]
    exact ⟨rfl, storeGet_storeSet_self _ _ _,
      fun u hu => storeGet_storeSet_ne _ _ _ _ hu⟩

/-- C7 witness: deleting by substring `"牛肉"` from
`["牛肉湯老店", "度小月"]` removes the first entry and keeps `"度小月"`. -/
theorem delete_saved_spec_witness :
    (removeEntry [("u", [⟨"牛肉湯老店", "l1", "r1"⟩, ⟨"度小月", "l2", "r2"⟩])]
        "u" "牛肉").1 = some ⟨"牛肉湯老店", "l1", "r1"⟩ ∧
    storeGet (removeEntry
        [("u", [⟨"牛肉湯老店", "l1", "r1"⟩, ⟨"度小月", "l2", "r2"⟩])]
        "u" "牛肉").2 "u" = [⟨"度小月", "l2", "r2"⟩] := by
  have h := (delete_saved_spec
      [("u", [⟨"牛肉湯老店", "l1", "r1"⟩, ⟨"度小月", "l2", "r2"⟩])] "u" "牛肉").2
      0 ⟨"牛肉湯老店", "l1", "r1"⟩ (by decide) (by decide)
      (fun j y hj _ => absurd hj (Nat.not_lt_zero j))
  exact ⟨h.1, h.2.1⟩
